import Mathlib

/-!
Shallow embedding of the Fluidra Pool refresh coordinator
(`custom_components/fluidra_pool/coordinator.py` and
`custom_components/fluidra_pool/const.py`), together with theorems
settling the frozen claims about it.

Conventions of the embedding:
* Python JSON values are modelled by `JVal`; Python dictionaries keyed by
  arbitrary JSON values are association lists `List (JVal e V)` with
  insert-overwrite semantics matching Python dict assignment.
* Wall-clock times are natural-number seconds.
* The aiohttp / Home Assistant environment (rate-limiter verdicts would be
  state, HTTP statuses, response payloads, token-refresh results) is passed
  in explicitly as environment records, so every coordinator method becomes
  a pure function of its environment and the coordinator state it touches.
-/

namespace FluidraPool

/-- JSON-ish Python value: `None`, booleans, integers, strings, lists and
string-keyed dictionaries (the shapes the Fluidra API returns). -/
inductive JVal where
  | null : JVal
  | bool : Bool → JVal
  | int : Int → JVal
  | str : String → JVal
  | arr : List JVal → JVal
  | obj : List (String × JVal) → JVal
deriving Repr

/-- Structural equality on `JVal`, matching Python `==` on JSON values. -/
def JVal.beq : JVal → JVal → Bool
  | .null, .null => true
  | .bool a, .bool b => a == b
  | .int a, .int b => a == b
  | .str a, .str b => a == b
  | .arr as, .arr bs => beqArr as bs
  | .obj as, .obj bs => beqObj as bs
  | _, _ => false
where
  beqArr : List JVal → List JVal → Bool
    | [], [] => true
    | a :: as, b :: bs => JVal.beq a b && beqArr as bs
    | _, _ => false
  beqObj : List (String × JVal) → List (String × JVal) → Bool
    | [], [] => true
    | (ka, a) :: as, (kb, b) :: bs => ka == kb && JVal.beq a b && beqObj as bs
    | _, _ => false

instance : BEq JVal := ⟨JVal.beq⟩

/-- Python truthiness of a JSON value (`if x:`). -/
def JVal.truthy : JVal → Bool
  | .null => false
  | .bool b => b
  | .int n => n != 0
  | .str s => s != ""
  | .arr xs => !xs.isEmpty
  | .obj fs => !fs.isEmpty

/-- Python `str()` of a JSON value, as used on component ids.  Ids coming
from the API are integers or strings; the rendering of container values
(never used as ids) is elided. -/
def pyStr : JVal → String
  | .null => "None"
  | .bool true => "True"
  | .bool false => "False"
  | .int n => toString n
  | .str s => s
  | .arr _ => "[...]"
  | .obj _ => "\x7b...\x7d"

/-- `d.get(k)` on a string-keyed dict, `None` when absent. -/
def objGet (fields : List (String × JVal)) (k : String) : JVal :=
  match fields.lookup k with
  | some v => v
  | none => .null

/-- `v.get(k)` for a `JVal` that is expected to be a dict:
non-dicts yield `None` (the exceptional paths are not exercised). -/
def jGet (v : JVal) (k : String) : JVal :=
  match v with
  | .obj fs => objGet fs k
  | _ => .null

/-- `v.get(k, d)` with an explicit default. -/
def jGetD (v : JVal) (k : String) (d : JVal) : JVal :=
  match v with
  | .obj fs => match fs.lookup k with
    | some x => x
    | none => d
  | _ => d

/-- Python `a or b` on values: first operand when truthy, else second. -/
def pyOr (a b : JVal) : JVal := if a.truthy then a else b

/-- Python dict assignment `d[k] = v` on an association list with keys of
any (hashable) type: overwrite in place when the key exists (keeping the
original key object and position), else append. -/
def pyInsert {κ β : Type} [BEq κ] (k : κ) (v : β) : List (κ × β) → List (κ × β)
  | [] => [(k, v)]
  | (k', v') :: rest =>
    if k == k' then (k', v) :: rest else (k', v') :: pyInsert k v rest

/-- `d.get(k)` on an association list, as an `Option`. -/
def pyGet? {κ β : Type} [BEq κ] (k : κ) : List (κ × β) → Option β
  | [] => none
  | (k', v') :: rest => if k == k' then some v' else pyGet? k rest

/-- `k in d` on an association list. -/
def pyMem {κ β : Type} [BEq κ] (k : κ) (d : List (κ × β)) : Bool :=
  (pyGet? k d).isSome

/-! ## Constants (`const.py`) -/

/-- `MIN_SCAN_INTERVAL = timedelta(minutes=5)`, in minutes. -/
def MIN_SCAN_INTERVAL : Int := 5

/-- `MAX_SCAN_INTERVAL = timedelta(hours=2)`, in minutes. -/
def MAX_SCAN_INTERVAL : Int := 120

/-- `DEFAULT_SCAN_INTERVAL = timedelta(minutes=30)`, in minutes. -/
def DEFAULT_SCAN_INTERVAL : Int := 30

/-- `QUICK_UPDATE_INTERVAL = timedelta(seconds=5)`, in seconds. -/
def QUICK_UPDATE_INTERVAL : Nat := 5

/-- `DEFAULT_API_RATE_LIMIT = 60` requests per minute. -/
def DEFAULT_API_RATE_LIMIT : Int := 60

/-- `MIN_API_RATE_LIMIT = 10` requests per minute. -/
def MIN_API_RATE_LIMIT : Int := 10

/-- `MAX_API_RATE_LIMIT = 120` requests per minute. -/
def MAX_API_RATE_LIMIT : Int := 120

/-- `ERROR_CODES` code-to-description table. -/
def ERROR_CODES : List (String × String) :=
  [("AUTH_FAILED", "Authentication failed"),
   ("RATE_LIMIT_EXCEEDED", "API rate limit exceeded"),
   ("DEVICE_NOT_FOUND", "Device not found"),
   ("POOL_NOT_FOUND", "Pool not found"),
   ("COMPONENT_NOT_FOUND", "Component not found"),
   ("API_ERROR", "API request failed"),
   ("NETWORK_ERROR", "Network connection error"),
   ("TIMEOUT_ERROR", "Request timeout"),
   ("INVALID_RESPONSE", "Invalid API response"),
   ("TOKEN_EXPIRED", "Authentication token expired"),
   ("REFRESH_FAILED", "Token refresh failed"),
   ("UNKNOWN_ERROR", "Unknown error occurred")]

/-- `ERROR_CODES.get(error_code, default)` where the looked-up code is an
arbitrary JSON value (string keys only can match). -/
def errorCodesGet (code : JVal) (dflt : JVal) : JVal :=
  match code with
  | .str s => match ERROR_CODES.lookup s with
    | some d => .str d
    | none => dflt
  | _ => dflt

/-- `error_code in ERROR_CODES`. -/
def errorCodesMem (code : JVal) : Bool :=
  match code with
  | .str s => (ERROR_CODES.lookup s).isSome
  | _ => false

/-! ## Constructor-time clamping (`FluidraPoolDataUpdateCoordinator.__init__`)

`configEntryInterval` / `configEntryRateLimit` describe the config entry:
`none` means no config entry was given, `some none` an entry without the
key (the default is used), `some (some x)` an entry carrying `x`. -/

/-- Effective update interval in minutes after the `__init__` bounds
check: the configured value (or default) clamped into
`[MIN_SCAN_INTERVAL, MAX_SCAN_INTERVAL]`. -/
def coordinatorUpdateInterval (configEntryInterval : Option (Option Int)) : Int :=
  let update_interval :=
    match configEntryInterval with
    | none => DEFAULT_SCAN_INTERVAL
    | some none => DEFAULT_SCAN_INTERVAL
    | some (some m) => m
  if update_interval < MIN_SCAN_INTERVAL then MIN_SCAN_INTERVAL
  else if update_interval > MAX_SCAN_INTERVAL then MAX_SCAN_INTERVAL
  else update_interval

/-- Effective API rate limit after the `__init__` bounds check: the
configured value (or default) clamped into
`[MIN_API_RATE_LIMIT, MAX_API_RATE_LIMIT]`. -/
def coordinatorApiRateLimit (configEntryRateLimit : Option (Option Int)) : Int :=
  let api_rate_limit :=
    match configEntryRateLimit with
    | none => DEFAULT_API_RATE_LIMIT
    | some none => DEFAULT_API_RATE_LIMIT
    | some (some r) => r
  if api_rate_limit < MIN_API_RATE_LIMIT then MIN_API_RATE_LIMIT
  else if api_rate_limit > MAX_API_RATE_LIMIT then MAX_API_RATE_LIMIT
  else api_rate_limit

/-! ## Rate limiter (`_check_rate_limit` / `_record_api_call`)

The window `api_calls` is the list of call timestamps (seconds). -/

/-- The purge performed at the start of `_check_rate_limit`: keep only
calls younger than one minute (`now - call_time < timedelta(minutes=1)`). -/
def purgeWindow (now : Nat) (w : List Nat) : List Nat :=
  w.filter (fun callTime => now - callTime < 60)

/-- `_check_rate_limit`: purge the window (a mutation of `self.api_calls`),
then admit iff the purged window is strictly below the limit.  Returns the
verdict together with the new window contents. -/
def checkRateLimit (now : Nat) (limit : Nat) (w : List Nat) : Bool × List Nat :=
  let api_calls := purgeWindow now w
  (decide (api_calls.length < limit), api_calls)

/-- `_record_api_call`: append the current timestamp to the window. -/
def recordApiCall (now : Nat) (w : List Nat) : List Nat :=
  w ++ [now]

/-! ## Quick-update scheduling (`schedule_quick_update` / `_quick_update`)

State: `some f` when a quick-update task is pending and will fire (run
`async_request_refresh`) at time `f`; `none` when no task is pending.
`quick_update_scheduled` is `true` exactly while a task is pending, so the
flag is represented by `Option.isSome`. -/

/-- One `schedule_quick_update()` call at time `t`: when a quick update is
already scheduled the call returns immediately (the pending timer is kept);
otherwise a new task is created that fires after `QUICK_UPDATE_INTERVAL`.
If the pending task's fire time has already passed (`f ≤ t`), the task has
fired and cleared the flag, so the fire is emitted and the call schedules
anew. -/
def quickStep (pending : Option Nat) (t : Nat) : List Nat × Option Nat :=
  match pending with
  | some f =>
    if f ≤ t then ([f], some (t + QUICK_UPDATE_INTERVAL))
    else ([], some f)
  | none => ([], some (t + QUICK_UPDATE_INTERVAL))

/-- Run a sequence of `schedule_quick_update()` calls at the given times,
returning the times at which a quick refresh actually fires (any task
still pending after the last call fires undisturbed at its fire time). -/
def quickRun : Option Nat → List Nat → List Nat
  | pending, [] =>
    match pending with
    | some f => [f]
    | none => []
  | pending, t :: ts =>
    let (fires, pending') := quickStep pending t
    fires ++ quickRun pending' ts

end FluidraPool

namespace FluidraPool

/-! ## Rate-limiter call traces

`RLAction` records how the coordinator uses the rate limiter on its single
cooperative timeline: `checkOnly t` is a `_check_rate_limit` call at time
`t` whose caller does not record (the refused case), and `checkRecord tc tr`
is a `_check_rate_limit` call at time `tc` followed by the caller's
`_record_api_call` at time `tr ≥ tc`. -/
inductive RLAction where
  | checkOnly : Nat → RLAction
  | checkRecord : Nat → Nat → RLAction
deriving Repr

/-- Effect of one action on the window. -/
def rlStep (limit : Nat) (w : List Nat) : RLAction → List Nat
  | .checkOnly t => (checkRateLimit t limit w).2
  | .checkRecord tc tr => recordApiCall tr (checkRateLimit tc limit w).2

/-- The trace respects the protocol: every `_record_api_call` happens only
after its `_check_rate_limit` returned `true` (and not before it in time). -/
def rlGuarded (limit : Nat) : List Nat → List RLAction → Bool
  | _, [] => true
  | w, .checkOnly t :: rest =>
    rlGuarded limit (rlStep limit w (.checkOnly t)) rest
  | w, .checkRecord tc tr :: rest =>
    (checkRateLimit tc limit w).1 && decide (tc ≤ tr) &&
      rlGuarded limit (rlStep limit w (.checkRecord tc tr)) rest

/-- The trace's times are chronological, starting no earlier than `t0`. -/
def rlChrono (t0 : Nat) : List RLAction → Bool
  | [] => true
  | .checkOnly t :: rest => decide (t0 ≤ t) && rlChrono t rest
  | .checkRecord tc tr :: rest =>
    decide (t0 ≤ tc) && decide (tc ≤ tr) && rlChrono tr rest

/-- The window size observed by each `_check_rate_limit` evaluation in the
trace, measured after its purge (so: the number of timestamps in the window
newer than 60 seconds at evaluation time). -/
def rlCheckCounts (limit : Nat) (w : List Nat) : List RLAction → List Nat
  | [] => []
  | .checkOnly t :: rest =>
    (purgeWindow t w).length ::
      rlCheckCounts limit (rlStep limit w (.checkOnly t)) rest
  | .checkRecord tc tr :: rest =>
    (purgeWindow tc w).length ::
      rlCheckCounts limit (rlStep limit w (.checkRecord tc tr)) rest

/-- Purging at a later time keeps no more entries. -/
theorem purgeWindow_length_antitone {t0 t : Nat} (h : t0 ≤ t) (w : List Nat) :
    (purgeWindow t w).length ≤ (purgeWindow t0 w).length := by
  apply List.Sublist.length_le
  apply List.monotone_filter_right
  intro a ha
  have h1 : t - a < 60 := by simpa using ha
  simp only [decide_eq_true_eq]
  omega

/-- Purging twice at the same time is the same as purging once. -/
theorem purgeWindow_purgeWindow (t : Nat) (w : List Nat) :
    purgeWindow t (purgeWindow t w) = purgeWindow t w := by
  simp [purgeWindow, List.filter_filter]

/-- Purging a window extended by a fresh timestamp `tr ≤ t` within the
minute keeps the purged prefix plus that timestamp. -/
theorem purgeWindow_append (t tr : Nat) (w : List Nat) (h : t - tr < 60) :
    purgeWindow t (w ++ [tr]) = purgeWindow t w ++ [tr] := by
  simp [purgeWindow, List.filter_append, h]

/-- Invariant form of the rate-window bound, generalized over the starting
window: if the window currently holds at most `limit` fresh entries, every
later admission check in a guarded chronological trace observes at most
`limit` fresh entries. -/
theorem rlCheckCounts_bounded (limit : Nat) :
    ∀ (acts : List RLAction) (w : List Nat) (t0 : Nat),
      (purgeWindow t0 w).length ≤ limit →
      rlChrono t0 acts = true →
      rlGuarded limit w acts = true →
      (rlCheckCounts limit w acts).all (fun n => decide (n ≤ limit)) = true := by
  intro acts
  induction acts with
  | nil => intro w t0 _ _ _; rfl
  | cons a rest ih =>
    intro w t0 hinv hchrono hguard
    cases a with
    | checkOnly t =>
      simp only [rlChrono, Bool.and_eq_true, decide_eq_true_eq] at hchrono
      obtain ⟨ht0, hchrono'⟩ := hchrono
      simp only [rlGuarded] at hguard
      have hcount : (purgeWindow t w).length ≤ limit :=
        le_trans (purgeWindow_length_antitone ht0 w) hinv
      simp only [rlCheckCounts, List.all_cons, Bool.and_eq_true, decide_eq_true_eq]
      refine ⟨hcount, ?_⟩
      apply ih ((checkRateLimit t limit w).2) t
      · show (purgeWindow t (purgeWindow t w)).length ≤ limit
        rw [purgeWindow_purgeWindow]
        exact hcount
      · exact hchrono'
      · exact hguard
    | checkRecord tc tr =>
      simp only [rlChrono, Bool.and_eq_true, decide_eq_true_eq] at hchrono
      obtain ⟨⟨ht0, htctr⟩, hchrono'⟩ := hchrono
      simp only [rlGuarded, Bool.and_eq_true, decide_eq_true_eq] at hguard
      obtain ⟨⟨hadm, _⟩, hguard'⟩ := hguard
      have hlt : (purgeWindow tc w).length < limit := by
        simpa [checkRateLimit] using hadm
      simp only [rlCheckCounts, List.all_cons, Bool.and_eq_true, decide_eq_true_eq]
      refine ⟨Nat.le_of_lt hlt, ?_⟩
      apply ih (rlStep limit w (.checkRecord tc tr)) tr
      · show (purgeWindow tr (recordApiCall tr (checkRateLimit tc limit w).2)).length ≤ limit
        have hfresh : tr - tr < 60 := by omega
        rw [recordApiCall,
            show (checkRateLimit tc limit w).2 = purgeWindow tc w from rfl,
            purgeWindow_append tr tr (purgeWindow tc w) hfresh,
            List.length_append]
        have := purgeWindow_length_antitone htctr (purgeWindow tc w)
        rw [purgeWindow_purgeWindow] at this
        simp only [List.length_singleton]
        omega
      · exact hchrono'
      · exact hguard'

/-- Claim C4: in every chronological trace of `_check_rate_limit` /
`_record_api_call` calls starting from the coordinator's empty window, in
which each record follows an admission that returned `true`, every
admission evaluation observes at most `limit` timestamps newer than 60
seconds in the window. -/
theorem claim_C4 (limit t0 : Nat) (acts : List RLAction)
    (hchrono : rlChrono t0 acts = true)
    (hguard : rlGuarded limit [] acts = true) :
    (rlCheckCounts limit [] acts).all (fun n => decide (n ≤ limit)) = true :=
  rlCheckCounts_bounded limit acts [] t0 (by simp [purgeWindow]) hchrono hguard

/-- Concrete guarded trace used to witness claim C4. -/
def rlTrace0 : List RLAction :=
  [.checkRecord 0 0, .checkRecord 1 2, .checkOnly 3, .checkRecord 70 70]

/-- Witness for claim C4 at a concrete trace with limit 2. -/
theorem claim_C4_witness :
    rlChrono 0 rlTrace0 = true ∧ rlGuarded 2 [] rlTrace0 = true ∧
      (rlCheckCounts 2 [] rlTrace0).all (fun n => decide (n ≤ 2)) = true :=
  ⟨by decide, by decide, claim_C4 2 0 rlTrace0 (by decide) (by decide)⟩

/-- Claim C5 counterexample: at time 100 with limit 10 and a window holding
one stale timestamp (0) and ten fresh ones (90), `_check_rate_limit`
returns `false` (the call is rejected) yet the window afterwards differs
from the window before: the purge inside `_check_rate_limit` mutated
`self.api_calls`. -/
theorem claim_C5_counterexample :
    (checkRateLimit 100 10 (0 :: List.replicate 10 90)).1 = false ∧
      (checkRateLimit 100 10 (0 :: List.replicate 10 90)).2 ≠
        0 :: List.replicate 10 90 := by
  constructor
  · decide
  · decide

/-- Claim C5 amended: `_check_rate_limit` never adds entries — its
resulting window is a sublist of the input consisting of exactly the
entries newer than 60 seconds (only the stale ones are dropped, whatever
the verdict); appending is done only by `_record_api_call`. -/
theorem claim_C5_amended (now limit : Nat) (w : List Nat) :
    ((checkRateLimit now limit w).2).Sublist w ∧
      (checkRateLimit now limit w).2 = w.filter (fun t => now - t < 60) ∧
      ((checkRateLimit now limit w).2).length ≤ w.length ∧
      recordApiCall now w = w ++ [now] := by
  refine ⟨?_, rfl, ?_, rfl⟩
  · exact List.filter_sublist w
  · exact List.Sublist.length_le (List.filter_sublist w)

end FluidraPool

namespace FluidraPool

/-- While a quick update remains pending (every call time is strictly
before the pending fire time), further `schedule_quick_update()` calls are
skipped and the single pending task fires at its original time. -/
theorem quickRun_pending (f : Nat) (ts : List Nat)
    (h : ts.all (fun t => decide (t < f)) = true) :
    quickRun (some f) ts = [f] := by
  induction ts with
  | nil => rfl
  | cons t ts ih =>
    simp only [List.all_cons, Bool.and_eq_true, decide_eq_true_eq] at h
    obtain ⟨h1, h2⟩ := h
    have hnot : ¬ (f ≤ t) := by omega
    simp only [quickRun, quickStep, if_neg hnot, List.nil_append]
    exact ih h2

/-- Claim C1 counterexample: two `schedule_quick_update()` calls at times 0
and 1 (both within the 5-second settle delay) produce exactly one quick
refresh, but it fires at time 5 — the delay after the FIRST call — which is
earlier than 1 + 5, so it does not fire at least the delay after the last
call, and no cancel-and-restart of the pending timer happens. -/
theorem claim_C1_counterexample :
    quickRun none [0, 1] = [5] ∧
      ¬ (1 + QUICK_UPDATE_INTERVAL ≤ 5) := by
  constructor
  · rfl
  · decide

/-- Claim C1 amended: if `schedule_quick_update()` is called N ≥ 1 times
and every later call happens strictly before the first call's timer fires
(within the settle delay of the first call), exactly one quick refresh
fires, at exactly `QUICK_UPDATE_INTERVAL` after the FIRST call; the later
calls are skipped because a quick update is already scheduled (the pending
timer is not cancelled or restarted). -/
theorem claim_C1_amended (t1 : Nat) (rest : List Nat)
    (h : rest.all (fun t => decide (t < t1 + QUICK_UPDATE_INTERVAL)) = true) :
    quickRun none (t1 :: rest) = [t1 + QUICK_UPDATE_INTERVAL] := by
  simp only [quickRun, quickStep, List.nil_append]
  exact quickRun_pending _ _ h

/-- Witness for the amended claim C1: calls at times 0, 1 and 2 yield
exactly one quick refresh, at time 5. -/
theorem claim_C1_witness :
    ([1, 2].all (fun t => decide (t < 0 + QUICK_UPDATE_INTERVAL)) = true) ∧
      quickRun none (0 :: [1, 2]) = [0 + QUICK_UPDATE_INTERVAL] :=
  ⟨by decide, claim_C1_amended 0 [1, 2] (by decide)⟩

/-- Claim C6: the coordinator's effective refresh interval is the
configured interval clamped into `[5, 120]` minutes and the effective rate
limit is the configured limit clamped into `[10, 120]` calls per minute;
the constructor clamps out-of-bounds values rather than rejecting them
(the functions are total and the spec's example values clamp as stated). -/
theorem claim_C6 (m r : Int) :
    coordinatorUpdateInterval (some (some m)) =
        max MIN_SCAN_INTERVAL (min MAX_SCAN_INTERVAL m) ∧
      coordinatorApiRateLimit (some (some r)) =
        max MIN_API_RATE_LIMIT (min MAX_API_RATE_LIMIT r) ∧
      MIN_SCAN_INTERVAL ≤ coordinatorUpdateInterval (some (some m)) ∧
      coordinatorUpdateInterval (some (some m)) ≤ MAX_SCAN_INTERVAL ∧
      MIN_API_RATE_LIMIT ≤ coordinatorApiRateLimit (some (some r)) ∧
      coordinatorApiRateLimit (some (some r)) ≤ MAX_API_RATE_LIMIT ∧
      coordinatorUpdateInterval (some (some 1)) = 5 ∧
      coordinatorUpdateInterval (some (some 300)) = 120 ∧
      coordinatorApiRateLimit (some (some 5)) = 10 := by
  unfold coordinatorUpdateInterval coordinatorApiRateLimit
  unfold MIN_SCAN_INTERVAL MAX_SCAN_INTERVAL MIN_API_RATE_LIMIT MAX_API_RATE_LIMIT
  refine ⟨?_, ?_, ?_, ?_, ?_, ?_, by decide, by decide, by decide⟩ <;>
    simp only [] <;> split_ifs <;> omega

end FluidraPool

namespace FluidraPool

/-- `isinstance(v, dict)`. -/
def JVal.isObj : JVal → Bool
  | .obj _ => true
  | _ => false

/-! ## Python `str.replace`, needed for `_fetch_with_retries`'s
`fetch_func.__name__.replace('_fetch_', '') + '_data'` attribute-name
computation. -/

/-- Whether the second character list starts with the first. -/
def charsStartWith : List Char → List Char → Bool
  | [], _ => true
  | _ :: _, [] => false
  | p :: ps, c :: cs => p == c && charsStartWith ps cs

/-- Replace all non-overlapping occurrences of `pat` by `rep`, scanning
left to right; `fuel` bounds the scan (instantiated with the string
length). -/
def pyReplaceAux (pat rep : List Char) : Nat → List Char → List Char
  | _, [] => []
  | 0, s => s
  | fuel + 1, c :: rest =>
    if charsStartWith pat (c :: rest) && !pat.isEmpty then
      rep ++ pyReplaceAux pat rep fuel ((c :: rest).drop pat.length)
    else
      c :: pyReplaceAux pat rep fuel rest

/-- Python `s.replace(pat, rep)` (for non-empty patterns). -/
def pyReplace (s pat rep : String) : String :=
  ⟨pyReplaceAux pat.data rep.data s.data.length s.data⟩

/-! ## API endpoint URLs (`const.py`) -/

/-- `API_BASE_URL`. -/
def API_BASE_URL : String := "https://api.fluidra-emea.com"

/-- `API_DEVICES_URL`. -/
def API_DEVICES_URL : String := API_BASE_URL ++ "/generic/devices"

/-- `API_CONSUMER_URL`. -/
def API_CONSUMER_URL : String := API_BASE_URL ++ "/mobile/consumers/me"

/-- `API_ENDPOINT_USER_PROFILE`. -/
def API_ENDPOINT_USER_PROFILE : String := API_BASE_URL ++ "/generic/users/me"

/-- `API_ENDPOINT_USER_POOLS`. -/
def API_ENDPOINT_USER_POOLS : String := API_BASE_URL ++ "/generic/users/me/pools"

/-- `API_ENDPOINT_DEVICE_COMPONENTS`, with the `device_id` placeholder
substituted (`.format` renders the id with `str()`). -/
def apiEndpointDeviceComponents (device_id : String) : String :=
  API_BASE_URL ++ "/generic/devices/" ++ device_id ++ "/components?deviceType=connected"

/-- `API_ENDPOINT_DEVICE_UICONFIG`, with the `device_id` placeholder
substituted. -/
def apiEndpointDeviceUiconfig (device_id : String) : String :=
  API_BASE_URL ++ "/generic/devices/" ++ device_id ++ "/uiconfig?appId=iaq&deviceType=connected"

/-- `API_ENDPOINT_SET_COMPONENT_VALUE`, with both placeholders
substituted. -/
def apiEndpointSetComponentValue (device_id component_id : String) : String :=
  API_BASE_URL ++ "/generic/devices/" ++ device_id ++ "/components/" ++
    component_id ++ "?deviceType=connected"

/-! ## Response normalization -/

/-- Processed form of one device (`_process_device`); field names follow
the keys of the Python dict it builds, in construction order.  Later
assignments in the Python code update values in place, so computing the
final values first and building the record once yields the same dict. -/
structure ProcessedDevice where
  id : JVal
  name : JVal
  serial_number : JVal
  type_ : JVal
  status : JVal
  components : List (JVal × JVal)
  device_name : JVal
  device_type : JVal
  device_status : JVal
  device_model : JVal
  device_version : JVal
  device_firmware : JVal
  device_sku : JVal
  device_thing_type : JVal
  device_first_connection : JVal
  device_connection_status : JVal
  device_session_id : JVal
  device_connectivity_timestamp : JVal
  pool_id : JVal
  alarms : JVal
  error_code : JVal
  error_message : JVal
  alarm_status : JVal
  alarm_count : JVal
deriving Repr

/-- The component-extraction loop at the end of `_process_device`:
iterate over the raw `components` list, keying each processed component by
its RAW id (`processed_device["components"][component_id] = ...` — no
string coercion) and skipping falsy ids (`if component_id:`). -/
def processDeviceComponentsField : List JVal → List (JVal × JVal) → List (JVal × JVal)
  | [], acc => acc
  | component :: rest, acc =>
    let component_id := jGet component "id"
    if component_id.truthy then
      processDeviceComponentsField rest
        (pyInsert component_id
          (JVal.obj
            [("id", component_id),
             ("type", jGet component "type"),
             ("status", jGet component "status"),
             ("name", jGet component "name"),
             ("model", jGet component "model"),
             ("version", jGet component "version"),
             ("data", jGetD component "data" (.obj []))]) acc)
    else
      processDeviceComponentsField rest acc

/-- `_process_device`: normalize one raw device.  The alarm fields are the
in-place updates applied when `device.get("alarms", [])` is truthy; the
first error-kind alarm supplies `error_code`/`error_message` (message
falling back from `ERROR_CODES` to the alarm's default text to
"Unknown error").  Alarm lists are the only alarm shape modelled (a
non-list truthy value would raise in Python and abort device processing,
which claims never exercise). -/
def processDevice (device : JVal) : ProcessedDevice :=
  let device_id := jGet device "id"
  let alarms := jGetD device "alarms" (.arr [])
  let alarmItems := match alarms with
    | .arr xs => xs
    | _ => []
  let firstErrAlarm := alarmItems.find? (fun alarm => jGet alarm "type" == JVal.str "error")
  let components := jGetD device "components" (.arr [])
  { id := device_id,
    name := pyOr (jGet device "name") (jGetD (jGetD device "info" (.obj [])) "name" (.str "Unknown Device")),
    serial_number := pyOr (jGet device "sn") (pyOr (jGet device "serialNumber") (jGet device "SerialNumber")),
    type_ := jGet device "type",
    status := jGet device "status",
    components :=
      (match components with
       | .arr items => processDeviceComponentsField items []
       | _ => []),
    device_name := jGet (jGetD device "info" (.obj [])) "name",
    device_type := jGet device "type",
    device_status := jGet device "status",
    device_model := jGet (jGetD device "info" (.obj [])) "family",
    device_version := jGet device "vr",
    device_firmware := pyOr (jGet device "vr") (jGet device "currentFirmwareVersion"),
    device_sku := jGet device "sku",
    device_thing_type := jGet device "thingType",
    device_first_connection := jGet device "firstConnection",
    device_connection_status :=
      if (jGet (jGetD device "connectivity" (.obj [])) "connected").truthy
      then .str "connected" else .str "disconnected",
    device_session_id := jGet (jGetD device "connectivity" (.obj [])) "sessionIdentifier",
    device_connectivity_timestamp := jGet (jGetD device "connectivity" (.obj [])) "timestamp",
    pool_id := jGet device "poolId",
    alarms := jGetD device "alarms" (.arr []),
    error_code :=
      (match firstErrAlarm with
       | some alarm => jGet alarm "errorCode"
       | none => .null),
    error_message :=
      (match firstErrAlarm with
       | some alarm =>
         errorCodesGet (jGet alarm "errorCode")
           (jGetD (jGetD alarm "default" (.obj [])) "text" (.str "Unknown error"))
       | none => .null),
    alarm_status :=
      if alarms.truthy then
        (if alarmItems.any (fun alarm => jGet alarm "type" == JVal.str "error")
         then .str "error" else .str "warning")
      else .str "normal",
    alarm_count := if alarms.truthy then .int alarmItems.length else .int 0 }

/-- The per-device loop of `_process_devices_data`: key each processed
device by its raw id, skipping falsy ids. -/
def processDevicesLoop : List JVal → List (JVal × ProcessedDevice) → List (JVal × ProcessedDevice)
  | [], acc => acc
  | device :: rest, acc =>
    let device_id := jGet device "id"
    if device_id.truthy then
      processDevicesLoop rest (pyInsert device_id (processDevice device) acc)
    else
      processDevicesLoop rest acc

/-- `_process_devices_data`: accept a bare list, a `data`-envelope list,
or a single device object; any other shape yields an empty map (the
Python code reaches its exception handler). -/
def processDevicesData (raw : JVal) : List (JVal × ProcessedDevice) :=
  match raw with
  | .arr items => processDevicesLoop items []
  | .obj fields =>
    (match fields.lookup "data" with
     | some (.arr items) => processDevicesLoop items []
     | _ =>
       let device_id := objGet fields "id"
       if device_id.truthy then [(device_id, processDevice raw)] else [])
  | _ => []

/-- The per-pool record built by `_process_user_pools_data`. -/
def processUserPool (user_pool : JVal) : JVal :=
  JVal.obj
    [("pool_id", jGet user_pool "poolId"),
     ("access_level", jGet user_pool "accessLevel"),
     ("permissions", jGet user_pool "permissions"),
     ("role", jGet user_pool "role"),
     ("owner", jGet user_pool "owner"),
     ("access_granted_date", jGet user_pool "accessGrantedDate"),
     ("last_accessed", jGet user_pool "lastAccessed")]

/-- The per-pool loop of `_process_user_pools_data`. -/
def processUserPoolsLoop : List JVal → List (JVal × JVal) → List (JVal × JVal)
  | [], acc => acc
  | user_pool :: rest, acc =>
    let pool_id := jGet user_pool "poolId"
    if pool_id.truthy then
      processUserPoolsLoop rest (pyInsert pool_id (processUserPool user_pool) acc)
    else
      processUserPoolsLoop rest acc

/-- `_process_user_pools_data`: bare list or `data`-envelope list; any
other shape yields an empty map (there is no single-object fallback). -/
def processUserPoolsData (raw : JVal) : List (JVal × JVal) :=
  match raw with
  | .arr items => processUserPoolsLoop items []
  | .obj fields =>
    (match fields.lookup "data" with
     | some (.arr items) => processUserPoolsLoop items []
     | _ => [])
  | _ => []

/-- Python dict-literal merge `\x7b"id": ..., "reportedValue": ...,
"ts": ..., **component\x7d`: start from the base fields, then insert the
component's own fields in order (overwriting on key collision). -/
def objMerge (base : List (String × JVal)) (extra : List (String × JVal)) : List (String × JVal) :=
  extra.foldl (fun acc kv => pyInsert kv.1 kv.2 acc) base

/-- The per-component loop of `_process_device_components_data`: keys are
`str(component_id)` — coerced to string form — and only a `None` id is
skipped (`if component_id is not None:`). -/
def processComponentsLoop : List JVal → List (String × JVal) → List (String × JVal)
  | [], acc => acc
  | component :: rest, acc =>
    let component_id := jGet component "id"
    if component_id == JVal.null then
      processComponentsLoop rest acc
    else
      processComponentsLoop rest
        (pyInsert (pyStr component_id)
          (JVal.obj (objMerge
            [("id", component_id),
             ("reportedValue", jGet component "reportedValue"),
             ("ts", jGet component "ts")]
            (match component with
             | .obj fs => fs
             | _ => [])))
          acc)

/-- `_process_device_components_data`: bare list or `data`-envelope
list; any other shape yields an empty map. -/
def processDeviceComponentsData (raw : JVal) : List (String × JVal) :=
  match raw with
  | .arr items => processComponentsLoop items []
  | .obj fields =>
    (match fields.lookup "data" with
     | some (.arr items) => processComponentsLoop items []
     | _ => [])
  | _ => []

/-- `_process_device_uiconfig_data`: fixed key extraction from a dict
response; non-dicts yield an empty result. -/
def processDeviceUiconfigData (raw : JVal) : List (String × JVal) :=
  match raw with
  | .obj _ =>
    [("ui_config", jGetD raw "uiConfig" (.obj [])),
     ("features", jGetD raw "features" (.obj [])),
     ("controls", jGetD raw "controls" (.obj [])),
     ("display_options", jGetD raw "displayOptions" (.obj [])),
     ("language", jGetD raw "language" (.str "en")),
     ("theme", jGetD raw "theme" (.str "default")),
     ("notifications", jGetD raw "notifications" (.obj [])),
     ("automation_rules", jGetD raw "automationRules" (.obj [])),
     ("schedule_settings", jGetD raw "scheduleSettings" (.obj [])),
     ("maintenance_reminders", jGetD raw "maintenanceReminders" (.obj [])),
     ("energy_settings", jGetD raw "energySettings" (.obj []))]
  | _ => []

end FluidraPool

namespace FluidraPool

/-- The error record `_process_error_information` builds for a device
(`dev_id` is the map key used as `device_id`; `ts` stands for
`datetime.now().isoformat()`). -/
def deviceErrorRecord (dev_id : JVal) (d : ProcessedDevice) (ts : String) : JVal :=
  JVal.obj
    [("error_code", d.error_code),
     ("error_message", d.error_message),
     ("alarm_status", d.alarm_status),
     ("alarm_count", d.alarm_count),
     ("device_id", dev_id),
     ("timestamp", .str ts),
     ("error_description",
      if d.error_code.truthy && errorCodesMem d.error_code
      then errorCodesGet d.error_code .null
      else .str "Unknown error")]

/-- The all-devices scan of `_process_error_information`: use the first
device (in mapping order) whose `error_code`, `error_message` or
`alarm_status` is truthy, then stop. -/
def scanErrorDevices (ts : String) : List (JVal × ProcessedDevice) → JVal
  | [] => JVal.obj []
  | (dev_id, d) :: rest =>
    if d.error_code.truthy || d.error_message.truthy || d.alarm_status.truthy then
      deviceErrorRecord dev_id d ts
    else
      scanErrorDevices ts rest

/-- `_process_error_information`: reset to empty, then — when a configured
device id is present in the map — derive from that device only, else scan
all devices in mapping order.  `configDeviceId = none` models a missing
config entry / key (`device_id = None`). -/
def processErrorInformation (configDeviceId : Option JVal)
    (devices : List (JVal × ProcessedDevice)) (ts : String) : JVal :=
  let device_id := configDeviceId.getD .null
  if !devices.isEmpty && device_id.truthy && pyMem device_id devices then
    match pyGet? device_id devices with
    | some d =>
      if d.error_code.truthy || d.error_message.truthy || d.alarm_status.truthy then
        deviceErrorRecord device_id d ts
      else
        JVal.obj []
    | none => JVal.obj []
  else if !devices.isEmpty then
    scanErrorDevices ts devices
  else
    JVal.obj []

/-! ## Per-source fetches

`FetchEnv` is the ambient behaviour one fetch attempt observes: the
verdict `_check_rate_limit` would return, the token-refresh result the
retry wrapper sees, whether the HTTP call raises, and the response
(status, JSON payload), plus the post-401 re-authentication behaviour for
the two fetches implementing it.  `ApiEvent` records the externally
visible actions of an attempt. -/

structure FetchEnv where
  tokenOk : Bool
  rateOk : Bool
  raises : Bool
  status : Nat
  payload : JVal
  reauthOk : Bool
  retryStatus : Nat
  retryPayload : JVal
deriving Repr

inductive ApiEvent where
  | rateCheck : Bool → ApiEvent
  | recordCall : ApiEvent
  | httpGet : String → ApiEvent
  | httpPut : String → ApiEvent
deriving Repr, DecidableEq

/-- `_fetch_consumer_data`: rate-gated GET storing the raw JSON; 401
triggers one inline re-authentication and a single retried GET; any other
non-200 (or an exception) stores `\x7b\x7d`. -/
def fetchConsumerData (e : FetchEnv) (consumer_data : JVal) : List ApiEvent × JVal :=
  if !e.rateOk then
    ([.rateCheck false], consumer_data)
  else if e.raises then
    ([.rateCheck true, .recordCall, .httpGet API_CONSUMER_URL], .obj [])
  else if e.status == 200 then
    ([.rateCheck true, .recordCall, .httpGet API_CONSUMER_URL], e.payload)
  else if e.status == 401 then
    (if e.reauthOk then
      (if e.retryStatus == 200 then
        ([.rateCheck true, .recordCall, .httpGet API_CONSUMER_URL, .httpGet API_CONSUMER_URL],
         e.retryPayload)
      else
        ([.rateCheck true, .recordCall, .httpGet API_CONSUMER_URL, .httpGet API_CONSUMER_URL],
         .obj []))
    else
      ([.rateCheck true, .recordCall, .httpGet API_CONSUMER_URL], .obj []))
  else
    ([.rateCheck true, .recordCall, .httpGet API_CONSUMER_URL], .obj [])

/-- `_fetch_devices_data`: rate-gated GET whose 200 payload is normalized
by `_process_devices_data` and replaces the device map wholesale; 401
triggers one inline re-authentication and a single retried GET; other
failures (or an exception) empty the map. -/
def fetchDevicesData (e : FetchEnv) (devices : List (JVal × ProcessedDevice)) :
    List ApiEvent × List (JVal × ProcessedDevice) :=
  if !e.rateOk then
    ([.rateCheck false], devices)
  else if e.raises then
    ([.rateCheck true, .recordCall, .httpGet API_DEVICES_URL], [])
  else if e.status == 200 then
    ([.rateCheck true, .recordCall, .httpGet API_DEVICES_URL], processDevicesData e.payload)
  else if e.status == 401 then
    (if e.reauthOk then
      (if e.retryStatus == 200 then
        ([.rateCheck true, .recordCall, .httpGet API_DEVICES_URL, .httpGet API_DEVICES_URL],
         processDevicesData e.retryPayload)
      else
        ([.rateCheck true, .recordCall, .httpGet API_DEVICES_URL, .httpGet API_DEVICES_URL],
         []))
    else
      ([.rateCheck true, .recordCall, .httpGet API_DEVICES_URL], []))
  else
    ([.rateCheck true, .recordCall, .httpGet API_DEVICES_URL], [])

/-- `_fetch_user_profile_data`: rate-gated GET storing the raw JSON;
no 401 handling; non-200 (or an exception) stores `\x7b\x7d`. -/
def fetchUserProfileData (e : FetchEnv) (user_profile_data : JVal) : List ApiEvent × JVal :=
  if !e.rateOk then
    ([.rateCheck false], user_profile_data)
  else if e.raises then
    ([.rateCheck true, .recordCall, .httpGet API_ENDPOINT_USER_PROFILE], .obj [])
  else if e.status == 200 then
    ([.rateCheck true, .recordCall, .httpGet API_ENDPOINT_USER_PROFILE], e.payload)
  else
    ([.rateCheck true, .recordCall, .httpGet API_ENDPOINT_USER_PROFILE], .obj [])

/-- `_fetch_user_pools_data`: records the call and performs the GET with
NO rate-limit consultation; 200 stores the normalized pools, anything
else (403 included) stores an empty map. -/
def fetchUserPoolsData (e : FetchEnv) (user_pools_data : List (JVal × JVal)) :
    List ApiEvent × List (JVal × JVal) :=
  if e.raises then
    ([.recordCall, .httpGet API_ENDPOINT_USER_POOLS], [])
  else if e.status == 200 then
    ([.recordCall, .httpGet API_ENDPOINT_USER_POOLS], processUserPoolsData e.payload)
  else if e.status == 403 then
    ([.recordCall, .httpGet API_ENDPOINT_USER_POOLS], [])
  else
    ([.recordCall, .httpGet API_ENDPOINT_USER_POOLS], [])

/-- `_fetch_device_components_data`: records the call and performs the GET
with NO rate-limit consultation; the per-device slot receives the
normalized components on 200 and an empty map on 403/400/other/exception.
(The `hasattr` re-initialization guards are vacuous: the attribute is set
in `__init__`.) -/
def fetchDeviceComponentsData (device_id : JVal) (e : FetchEnv)
    (device_components_data : List (JVal × List (String × JVal))) :
    List ApiEvent × List (JVal × List (String × JVal)) :=
  let url := apiEndpointDeviceComponents (pyStr device_id)
  if e.raises then
    ([.recordCall, .httpGet url], pyInsert device_id [] device_components_data)
  else if e.status == 200 then
    ([.recordCall, .httpGet url],
     pyInsert device_id (processDeviceComponentsData e.payload) device_components_data)
  else if e.status == 403 then
    ([.recordCall, .httpGet url], pyInsert device_id [] device_components_data)
  else if e.status == 400 then
    ([.recordCall, .httpGet url], pyInsert device_id [] device_components_data)
  else
    ([.recordCall, .httpGet url], pyInsert device_id [] device_components_data)

/-- `_fetch_device_uiconfig_data`: records the call and performs the GET
with NO rate-limit consultation; stores the normalized UI config on 200
and an empty result on 403/400/other/exception (not per-device: the whole
attribute is replaced). -/
def fetchDeviceUiconfigData (device_id : JVal) (e : FetchEnv)
    (device_uiconfig_data : List (String × JVal)) :
    List ApiEvent × List (String × JVal) :=
  let url := apiEndpointDeviceUiconfig (pyStr device_id)
  if e.raises then
    ([.recordCall, .httpGet url], [])
  else if e.status == 200 then
    ([.recordCall, .httpGet url], processDeviceUiconfigData e.payload)
  else if e.status == 403 then
    ([.recordCall, .httpGet url], [])
  else if e.status == 400 then
    ([.recordCall, .httpGet url], [])
  else
    ([.recordCall, .httpGet url], [])

/-! ## The bounded-retry wrapper (`_fetch_with_retries`) -/

/-- `RETRY_ATTEMPTS = 3`. -/
def RETRY_ATTEMPTS : Nat := 3

/-- The attributes set on the coordinator in `__init__` (the names
`hasattr(self, ...)` can see). -/
def coordinatorAttrs : List String :=
  ["auth", "session", "devices", "consumer_data", "user_profile_data",
   "pool_status_data", "user_pools_data", "device_components_data",
   "device_uiconfig_data", "error_information", "config_entry",
   "api_rate_limit", "api_calls", "last_api_call", "next_update",
   "quick_update_scheduled", "quick_update_task"]

/-- `fetch_func.__name__.replace('_fetch_', '') + '_data'`. -/
def retryDataAttr (fetchName : String) : String :=
  pyReplace fetchName "_fetch_" "" ++ "_data"

/-- `hasattr(self, fetch_func.__name__.replace('_fetch_', '') + '_data')`. -/
def retryHasAttr (fetchName : String) : Bool :=
  coordinatorAttrs.contains (retryDataAttr fetchName)

/-- `_fetch_with_retries`: up to `RETRY_ATTEMPTS` attempts (the
environment list carries one entry per attempt).  A failed token refresh
skips to the next attempt; otherwise the fetch runs and, when the computed
data attribute exists and is empty, the loop retries — but for every fetch
in this coordinator the computed attribute name (e.g.
`consumer_data_data`) does not exist, so the wrapper returns after the
first attempt whose token refresh succeeded.  The wrapper never raises
(each fetch catches its own exceptions). -/
def fetchWithRetries {σ : Type} (fetchName : String) (step : FetchEnv → σ → σ)
    (isEmptyData : σ → Bool) : List FetchEnv → σ → σ
  | [], cur => cur
  | e :: rest, cur =>
    if !e.tokenOk then
      fetchWithRetries fetchName step isEmptyData rest cur
    else
      let cur' := step e cur
      if retryHasAttr fetchName then
        (if isEmptyData cur' then fetchWithRetries fetchName step isEmptyData rest cur'
         else cur')
      else
        cur'

/-! ## The refresh cycle (`_async_update_data`) -/

/-- Per-cycle environment: the authentication result at cycle start and
one attempt-environment list per data source (each of length
`RETRY_ATTEMPTS` when produced by the scheduler). -/
structure CycleEnv where
  authOk : Bool
  consumerAttempts : List FetchEnv
  devicesAttempts : List FetchEnv
  userProfileAttempts : List FetchEnv
  userPoolsAttempts : List FetchEnv
  componentsAttempts : List FetchEnv
  uiconfigAttempts : List FetchEnv
deriving Repr

/-- The coordinator's data attributes touched by the refresh cycle. -/
structure CoordState where
  consumer_data : JVal
  devices : List (JVal × ProcessedDevice)
  user_profile_data : JVal
  pool_status_data : JVal
  user_pools_data : List (JVal × JVal)
  device_components_data : List (JVal × List (String × JVal))
  device_uiconfig_data : List (String × JVal)
  error_information : JVal
deriving Repr

/-- The attribute values set in `__init__`. -/
def initialCoordState : CoordState :=
  { consumer_data := .obj [],
    devices := [],
    user_profile_data := .obj [],
    pool_status_data := .obj [],
    user_pools_data := [],
    device_components_data := [],
    device_uiconfig_data := [],
    error_information := .obj [] }

/-- `_async_update_data`: `none` models the `ConfigEntryAuthFailed` raise
when authentication fails at cycle start; otherwise the sources are
fetched sequentially in fixed order (components and UI config only when at
least one device is known, for the first device in mapping order), and
the returned snapshot is assembled from the resulting attributes —
`error_information` is carried over unchanged: no step of the cycle
recomputes it. -/
def asyncUpdateData (env : CycleEnv) (s : CoordState) : Option CoordState :=
  if !env.authOk then none
  else
    let consumer := fetchWithRetries "_fetch_consumer_data"
      (fun e c => (fetchConsumerData e c).2) (fun d => !d.truthy)
      env.consumerAttempts s.consumer_data
    let devices := fetchWithRetries "_fetch_devices_data"
      (fun e c => (fetchDevicesData e c).2) (fun d => d.isEmpty)
      env.devicesAttempts s.devices
    let userProfile := fetchWithRetries "_fetch_user_profile_data"
      (fun e c => (fetchUserProfileData e c).2) (fun d => !d.truthy)
      env.userProfileAttempts s.user_profile_data
    let userPools := fetchWithRetries "_fetch_user_pools_data"
      (fun e c => (fetchUserPoolsData e c).2) (fun d => d.isEmpty)
      env.userPoolsAttempts s.user_pools_data
    let compsAndUi :=
      if !devices.isEmpty then
        let first_device_id := (devices.head?.map Prod.fst).getD .null
        (fetchWithRetries "_fetch_device_components_data"
          (fun e c => (fetchDeviceComponentsData first_device_id e c).2)
          (fun d => d.isEmpty) env.componentsAttempts s.device_components_data,
         fetchWithRetries "_fetch_device_uiconfig_data"
          (fun e c => (fetchDeviceUiconfigData first_device_id e c).2)
          (fun d => d.isEmpty) env.uiconfigAttempts s.device_uiconfig_data)
      else
        (s.device_components_data, s.device_uiconfig_data)
    some
      { consumer_data := consumer,
        devices := devices,
        user_profile_data := userProfile,
        pool_status_data := s.pool_status_data,
        user_pools_data := userPools,
        device_components_data := compsAndUi.1,
        device_uiconfig_data := compsAndUi.2,
        error_information := s.error_information }

end FluidraPool

namespace FluidraPool

/-! ## Control writes (`set_component_value` / `set_temperature_value` /
`set_power_value`)

`WriteEnv` is the ambient behaviour of one control write; `WriteResult`
captures the Boolean return value, the externally visible actions, the
JSON body of the PUT (when one was issued) and how many times
`schedule_quick_update` was called. -/

structure WriteEnv where
  rateOk : Bool
  tokenOk : Bool
  raises : Bool
  status : Nat
deriving Repr

structure WriteResult where
  success : Bool
  events : List ApiEvent
  putBody : Option (List (String × JVal))
  quickRefreshCalls : Nat
deriving Repr

/-- Component lookup shared by all three writes:
`device_components.get(str(component_id)) or
device_components.get(component_id)` — the map's keys are strings (built
by `_process_device_components_data`), so the raw-key fallback can only
match when the raw id is itself a string. -/
def componentLookup (device_components : List (String × JVal)) (component_id : JVal) : JVal :=
  pyOr (objGet device_components (pyStr component_id))
    (match component_id with
     | .str s => objGet device_components s
     | _ => .null)

/-- `set_component_value`: rate-limit admission, token refresh, then the
component must be present for the device
(`device_id in self.device_components_data` and a TRUTHY
`component_data`); a PUT with body `\x7b"desiredValue": value\x7d` follows;
200 yields `True` after calling `schedule_quick_update()` once, anything
else yields `False` with no quick update. -/
def setComponentValue (env : WriteEnv)
    (device_components_data : List (JVal × List (String × JVal)))
    (device_id : String) (component_id : JVal) (value : JVal) : WriteResult :=
  if !env.rateOk then
    { success := false, events := [.rateCheck false], putBody := none, quickRefreshCalls := 0 }
  else if !env.tokenOk then
    { success := false, events := [.rateCheck true], putBody := none, quickRefreshCalls := 0 }
  else if !device_components_data.isEmpty && pyMem (JVal.str device_id) device_components_data then
    let device_components := (pyGet? (JVal.str device_id) device_components_data).getD []
    let component_data := componentLookup device_components component_id
    if component_data.truthy then
      let url := apiEndpointSetComponentValue device_id (pyStr component_id)
      let payload := [("desiredValue", value)]
      if env.raises then
        { success := false, events := [.rateCheck true, .recordCall, .httpPut url],
          putBody := some payload, quickRefreshCalls := 0 }
      else if env.status == 200 then
        { success := true, events := [.rateCheck true, .recordCall, .httpPut url],
          putBody := some payload, quickRefreshCalls := 1 }
      else
        { success := false, events := [.rateCheck true, .recordCall, .httpPut url],
          putBody := some payload, quickRefreshCalls := 0 }
    else
      { success := false, events := [.rateCheck true], putBody := none, quickRefreshCalls := 0 }
  else
    { success := false, events := [.rateCheck true], putBody := none, quickRefreshCalls := 0 }

/-- `set_temperature_value`: rate-limit admission, token refresh, then
`self.device_components_data and device_id` must be truthy, the device's
map is fetched with `.get(device_id, \x7b\x7d)` and the component data
must be a dict (`isinstance(component_data, dict)`); a PUT with body
`\x7b"desiredValue": desired_value\x7d` follows; 200 yields `True` after
calling `schedule_quick_update()` once, anything else `False` with no
quick update. -/
def setTemperatureValue (env : WriteEnv)
    (device_components_data : List (JVal × List (String × JVal)))
    (device_id : String) (component_id : JVal) (desired_value : JVal) : WriteResult :=
  if !env.rateOk then
    { success := false, events := [.rateCheck false], putBody := none, quickRefreshCalls := 0 }
  else if !env.tokenOk then
    { success := false, events := [.rateCheck true], putBody := none, quickRefreshCalls := 0 }
  else if !device_components_data.isEmpty && device_id != "" then
    let device_components := (pyGet? (JVal.str device_id) device_components_data).getD []
    let component_data := componentLookup device_components component_id
    if component_data.isObj then
      let url := apiEndpointSetComponentValue device_id (pyStr component_id)
      let payload := [("desiredValue", desired_value)]
      if env.raises then
        { success := false, events := [.rateCheck true, .recordCall, .httpPut url],
          putBody := some payload, quickRefreshCalls := 0 }
      else if env.status == 200 then
        { success := true, events := [.rateCheck true, .recordCall, .httpPut url],
          putBody := some payload, quickRefreshCalls := 1 }
      else
        { success := false, events := [.rateCheck true, .recordCall, .httpPut url],
          putBody := some payload, quickRefreshCalls := 0 }
    else
      { success := false, events := [.rateCheck true], putBody := none, quickRefreshCalls := 0 }
  else
    { success := false, events := [.rateCheck true], putBody := none, quickRefreshCalls := 0 }

/-- `set_power_value`: line-for-line the same checks, PUT and outcomes as
`set_temperature_value` (only the log strings differ). -/
def setPowerValue (env : WriteEnv)
    (device_components_data : List (JVal × List (String × JVal)))
    (device_id : String) (component_id : JVal) (desired_value : JVal) : WriteResult :=
  if !env.rateOk then
    { success := false, events := [.rateCheck false], putBody := none, quickRefreshCalls := 0 }
  else if !env.tokenOk then
    { success := false, events := [.rateCheck true], putBody := none, quickRefreshCalls := 0 }
  else if !device_components_data.isEmpty && device_id != "" then
    let device_components := (pyGet? (JVal.str device_id) device_components_data).getD []
    let component_data := componentLookup device_components component_id
    if component_data.isObj then
      let url := apiEndpointSetComponentValue device_id (pyStr component_id)
      let payload := [("desiredValue", desired_value)]
      if env.raises then
        { success := false, events := [.rateCheck true, .recordCall, .httpPut url],
          putBody := some payload, quickRefreshCalls := 0 }
      else if env.status == 200 then
        { success := true, events := [.rateCheck true, .recordCall, .httpPut url],
          putBody := some payload, quickRefreshCalls := 1 }
      else
        { success := false, events := [.rateCheck true, .recordCall, .httpPut url],
          putBody := some payload, quickRefreshCalls := 0 }
    else
      { success := false, events := [.rateCheck true], putBody := none, quickRefreshCalls := 0 }
  else
    { success := false, events := [.rateCheck true], putBody := none, quickRefreshCalls := 0 }

end FluidraPool

namespace FluidraPool

/-- Claim C10: `set_temperature_value` and `set_power_value` are
extensionally equal — for every input and every identical environment
behaviour they perform the same checks, issue the same PUT with the same
body, schedule the same quick refresh and return the same result (the two
bodies differ only in log strings). -/
theorem claim_C10 (env : WriteEnv) (dcd : List (JVal × List (String × JVal)))
    (device_id : String) (component_id desired_value : JVal) :
    setTemperatureValue env dcd device_id component_id desired_value =
      setPowerValue env dcd device_id component_id desired_value := rfl

/-- The control-write contract of the spec: whenever a PUT is issued its
body is exactly the desired-value singleton; with a PUT issued, a 200
response means success with exactly one quick refresh scheduled and any
other status means failure with none; and when no PUT is issued the write
fails and schedules none. -/
def writeContract (r : WriteResult) (env : WriteEnv) (v : JVal) : Prop :=
  (r.putBody = none ∨ r.putBody = some [("desiredValue", v)]) ∧
    (r.putBody.isSome = true →
      (if env.status == 200 then r.success = true ∧ r.quickRefreshCalls = 1
       else r.success = false ∧ r.quickRefreshCalls = 0)) ∧
    (r.putBody = none → r.success = false ∧ r.quickRefreshCalls = 0)

/-- `set_component_value` satisfies the control-write contract when the
PUT does not raise. -/
theorem setComponentValue_contract (env : WriteEnv)
    (dcd : List (JVal × List (String × JVal))) (device_id : String)
    (component_id value : JVal) (hraise : env.raises = false) :
    writeContract (setComponentValue env dcd device_id component_id value) env value := by
  unfold setComponentValue writeContract
  split_ifs <;> simp_all
  all_goals split_ifs <;> simp_all

/-- `set_temperature_value` satisfies the control-write contract when the
PUT does not raise. -/
theorem setTemperatureValue_contract (env : WriteEnv)
    (dcd : List (JVal × List (String × JVal))) (device_id : String)
    (component_id value : JVal) (hraise : env.raises = false) :
    writeContract (setTemperatureValue env dcd device_id component_id value) env value := by
  unfold setTemperatureValue writeContract
  split_ifs <;> simp_all
  all_goals split_ifs <;> simp_all

/-- Claim C3: for all three control writes, every issued PUT carries
exactly the body with the single `desiredValue` field; a 200 response
yields success and exactly one `schedule_quick_update()` call, any other
status yields failure and none, and a write that never reaches the PUT
fails and schedules none. -/
theorem claim_C3 (env : WriteEnv) (dcd : List (JVal × List (String × JVal)))
    (device_id : String) (component_id value : JVal)
    (hraise : env.raises = false) :
    writeContract (setComponentValue env dcd device_id component_id value) env value ∧
      writeContract (setTemperatureValue env dcd device_id component_id value) env value ∧
      writeContract (setPowerValue env dcd device_id component_id value) env value := by
  refine ⟨setComponentValue_contract env dcd device_id component_id value hraise,
    setTemperatureValue_contract env dcd device_id component_id value hraise, ?_⟩
  show writeContract (setTemperatureValue env dcd device_id component_id value) env value
  exact setTemperatureValue_contract env dcd device_id component_id value hraise

/-- Environment of a successful (HTTP 200) attempt carrying `p`. -/
def fetchEnvOk (p : JVal) : FetchEnv :=
  { tokenOk := true, rateOk := true, raises := false, status := 200, payload := p,
    reauthOk := false, retryStatus := 0, retryPayload := .null }

/-- Environment of an attempt failing with the given non-200 status. -/
def fetchEnvFail (st : Nat) : FetchEnv :=
  { tokenOk := true, rateOk := true, raises := false, status := st, payload := .null,
    reauthOk := false, retryStatus := 0, retryPayload := .null }

/-- Environment of an attempt refused by the rate limiter. -/
def fetchEnvRefused : FetchEnv :=
  { tokenOk := true, rateOk := false, raises := false, status := 200, payload := .null,
    reauthOk := false, retryStatus := 0, retryPayload := .null }

/-- Store used to witness claim C3: device `d1` with component `15`. -/
def dcdWitness : List (JVal × List (String × JVal)) :=
  [(.str "d1", [("15", .obj [("id", .int 15), ("reportedValue", .int 200)])])]

/-- Witness for claim C3: a concrete 200-response write through each of
the three operations satisfies the contract, with the PUT body evaluated
to the desired-value singleton. -/
theorem claim_C3_witness :
    ({ rateOk := true, tokenOk := true, raises := false, status := 200 : WriteEnv }.raises
        = false) ∧
      writeContract
        (setComponentValue { rateOk := true, tokenOk := true, raises := false, status := 200 }
          dcdWitness "d1" (.int 15) (.int 250))
        { rateOk := true, tokenOk := true, raises := false, status := 200 } (.int 250) ∧
      writeContract
        (setTemperatureValue { rateOk := true, tokenOk := true, raises := false, status := 200 }
          dcdWitness "d1" (.int 15) (.int 250))
        { rateOk := true, tokenOk := true, raises := false, status := 200 } (.int 250) ∧
      writeContract
        (setPowerValue { rateOk := true, tokenOk := true, raises := false, status := 200 }
          dcdWitness "d1" (.int 15) (.int 250))
        { rateOk := true, tokenOk := true, raises := false, status := 200 } (.int 250) ∧
      (setTemperatureValue { rateOk := true, tokenOk := true, raises := false, status := 200 }
          dcdWitness "d1" (.int 15) (.int 250)).putBody =
        some [("desiredValue", .int 250)] :=
  ⟨rfl,
   (claim_C3 { rateOk := true, tokenOk := true, raises := false, status := 200 }
     dcdWitness "d1" (.int 15) (.int 250) rfl).1,
   (claim_C3 { rateOk := true, tokenOk := true, raises := false, status := 200 }
     dcdWitness "d1" (.int 15) (.int 250) rfl).2.1,
   (claim_C3 { rateOk := true, tokenOk := true, raises := false, status := 200 }
     dcdWitness "d1" (.int 15) (.int 250) rfl).2.2,
   rfl⟩

/-- Claim C7 counterexample: the user-pools fetch performs its HTTP GET
having consulted no rate limiter at all — its event trace contains the GET
and no `rateCheck`, even in an environment where admission would be
refused. -/
theorem claim_C7_counterexample :
    (fetchUserPoolsData fetchEnvRefused []).1 =
        [.recordCall, .httpGet API_ENDPOINT_USER_POOLS] ∧
      ApiEvent.httpGet API_ENDPOINT_USER_POOLS ∈ (fetchUserPoolsData fetchEnvRefused []).1 ∧
      ApiEvent.rateCheck true ∉ (fetchUserPoolsData fetchEnvRefused []).1 ∧
      ApiEvent.rateCheck false ∉ (fetchUserPoolsData fetchEnvRefused []).1 := by
  refine ⟨rfl, ?_, ?_, ?_⟩ <;> decide

/-- Claim C7 amended: the consumer, devices and user-profile fetches
consult the rate limiter first, and a refusal is a pure no-op (no HTTP
call, no record, stored data unchanged, no error); the user-pools,
device-components and device-UI-config fetches never consult the rate
limiter and always record and issue their HTTP GET. -/
theorem claim_C7_amended (e : FetchEnv) (cd : JVal) (dm : List (JVal × ProcessedDevice))
    (up : JVal) (upd : List (JVal × JVal)) (did : JVal)
    (dcd : List (JVal × List (String × JVal))) (ucd : List (String × JVal)) :
    fetchConsumerData { e with rateOk := false } cd = ([.rateCheck false], cd) ∧
      fetchDevicesData { e with rateOk := false } dm = ([.rateCheck false], dm) ∧
      fetchUserProfileData { e with rateOk := false } up = ([.rateCheck false], up) ∧
      (fetchUserPoolsData e upd).1 = [.recordCall, .httpGet API_ENDPOINT_USER_POOLS] ∧
      (fetchDeviceComponentsData did e dcd).1 =
        [.recordCall, .httpGet (apiEndpointDeviceComponents (pyStr did))] ∧
      (fetchDeviceUiconfigData did e ucd).1 =
        [.recordCall, .httpGet (apiEndpointDeviceUiconfig (pyStr did))] := by
  refine ⟨?_, ?_, ?_, ?_, ?_, ?_⟩
  · simp [fetchConsumerData]
  · simp [fetchDevicesData]
  · simp [fetchUserProfileData]
  · unfold fetchUserPoolsData; split_ifs <;> rfl
  · unfold fetchDeviceComponentsData; split_ifs <;> rfl
  · unfold fetchDeviceUiconfigData; split_ifs <;> rfl

end FluidraPool

namespace FluidraPool

/-- The consumer-data slot as `_fetch_with_retries(self._fetch_consumer_data)`
leaves it. -/
def consumerRetry (attempts : List FetchEnv) (cur : JVal) : JVal :=
  fetchWithRetries "_fetch_consumer_data" (fun e c => (fetchConsumerData e c).2)
    (fun d => !d.truthy) attempts cur

/-- The attribute name `_fetch_with_retries` computes for the consumer
fetch is `consumer_data_data`, which is not an attribute of the
coordinator — so the empty-data retry check is dead code. -/
theorem retryHasAttr_consumer : retryHasAttr "_fetch_consumer_data" = false := by decide

/-- Claim C2 counterexample: a first refresh stores a non-empty consumer
payload; a following refresh whose attempts fail with HTTP 500 leaves the
stored consumer data EMPTY, not at its last successfully fetched value —
each failing attempt overwrites the slot with an empty dict. -/
theorem claim_C2_counterexample :
    consumerRetry [fetchEnvOk (.obj [("name", .str "x")])] (.obj []) =
        .obj [("name", .str "x")] ∧
      consumerRetry [fetchEnvFail 500, fetchEnvFail 500, fetchEnvFail 500]
          (.obj [("name", .str "x")]) = .obj [] ∧
      JVal.obj [("name", .str "x")] ≠ JVal.obj [] := by
  refine ⟨rfl, rfl, ?_⟩
  intro h
  injection h with h2
  exact List.noConfusion h2

/-- The first attempt whose token refresh succeeded. -/
def firstEffectiveAttempt : List FetchEnv → Option FetchEnv
  | [] => none
  | e :: rest => if e.tokenOk then some e else firstEffectiveAttempt rest

/-- Environment of an attempt whose token refresh failed. -/
def fetchEnvTokenFail : FetchEnv :=
  { tokenOk := false, rateOk := true, raises := false, status := 200, payload := .null,
    reauthOk := false, retryStatus := 0, retryPayload := .null }

/-- The devices slot as `_fetch_with_retries(self._fetch_devices_data)`
leaves it. -/
def devicesRetry (attempts : List FetchEnv) (cur : List (JVal × ProcessedDevice)) :
    List (JVal × ProcessedDevice) :=
  fetchWithRetries "_fetch_devices_data" (fun e c => (fetchDevicesData e c).2)
    (fun d => d.isEmpty) attempts cur

/-- The user-profile slot as the retry wrapper leaves it. -/
def userProfileRetry (attempts : List FetchEnv) (cur : JVal) : JVal :=
  fetchWithRetries "_fetch_user_profile_data" (fun e c => (fetchUserProfileData e c).2)
    (fun d => !d.truthy) attempts cur

/-- The user-pools slot as the retry wrapper leaves it. -/
def userPoolsRetry (attempts : List FetchEnv) (cur : List (JVal × JVal)) :
    List (JVal × JVal) :=
  fetchWithRetries "_fetch_user_pools_data" (fun e c => (fetchUserPoolsData e c).2)
    (fun d => d.isEmpty) attempts cur

/-- The device-components store as the retry wrapper leaves it. -/
def componentsRetry (did : JVal) (attempts : List FetchEnv)
    (cur : List (JVal × List (String × JVal))) : List (JVal × List (String × JVal)) :=
  fetchWithRetries "_fetch_device_components_data"
    (fun e c => (fetchDeviceComponentsData did e c).2) (fun d => d.isEmpty) attempts cur

/-- The device-UI-config slot as the retry wrapper leaves it. -/
def uiconfigRetry (did : JVal) (attempts : List FetchEnv)
    (cur : List (String × JVal)) : List (String × JVal) :=
  fetchWithRetries "_fetch_device_uiconfig_data"
    (fun e c => (fetchDeviceUiconfigData did e c).2) (fun d => d.isEmpty) attempts cur

/-- None of the remaining per-source fetch names yields an existing
coordinator attribute under `_fetch_with_retries`'s name computation
(e.g. `devices_data_data`), so the empty-data retry check is dead for
every source. -/
theorem retryHasAttr_sources :
    retryHasAttr "_fetch_devices_data" = false ∧
      retryHasAttr "_fetch_user_profile_data" = false ∧
      retryHasAttr "_fetch_user_pools_data" = false ∧
      retryHasAttr "_fetch_device_components_data" = false ∧
      retryHasAttr "_fetch_device_uiconfig_data" = false := by
  refine ⟨?_, ?_, ?_, ?_, ?_⟩ <;> decide

/-- With the empty-data check dead, the retry wrapper's result is decided
entirely by the first attempt whose token refresh succeeded: earlier
token failures are skipped, and nothing after that attempt runs —
failing attempts are never retried. -/
theorem fetchWithRetries_firstEffective {σ : Type} (fetchName : String)
    (step : FetchEnv → σ → σ) (isEmptyData : σ → Bool)
    (hattr : retryHasAttr fetchName = false) :
    ∀ (attempts : List FetchEnv) (cur : σ),
      fetchWithRetries fetchName step isEmptyData attempts cur =
        (match firstEffectiveAttempt attempts with
         | none => cur
         | some a => step a cur) := by
  intro attempts
  induction attempts with
  | nil => intro cur; rfl
  | cons e rest ih =>
    intro cur
    by_cases h : e.tokenOk
    · simp [fetchWithRetries, h, firstEffectiveAttempt, hattr]
    · simp only [fetchWithRetries, h, Bool.not_false, if_pos, firstEffectiveAttempt,
        if_neg, Bool.false_eq_true, not_false_eq_true]
      exact ih cur

/-- Claim C2 amended: for EVERY data source of the refresh cycle, an
attempt failing with a non-200 status or an exception RESETS that
source's stored data to empty, discarding any previously fetched value; a
rate-limit refusal (possible only for the three rate-gated sources) or a
token-refresh failure leaves the stored value unchanged; each source's
slot is decided by its first token-valid attempt (failures are never
retried); and the cycle proceeds regardless: with authentication
succeeding, `_async_update_data` returns a snapshot however any source's
attempts fail. -/
theorem claim_C2_amended (rest attempts : List FetchEnv) (st : Nat)
    (cur cv : JVal) (dm : List (JVal × ProcessedDevice)) (upd : List (JVal × JVal))
    (did : JVal) (dcd : List (JVal × List (String × JVal))) (ucd : List (String × JVal))
    (e : FetchEnv) (env : CycleEnv) (s : CoordState) (hst : st ≠ 200) :
    consumerRetry (fetchEnvFail st :: rest) cur = .obj [] ∧
      devicesRetry (fetchEnvFail st :: rest) dm = [] ∧
      userProfileRetry (fetchEnvFail st :: rest) cv = .obj [] ∧
      userPoolsRetry (fetchEnvFail st :: rest) upd = [] ∧
      componentsRetry did (fetchEnvFail st :: rest) dcd = pyInsert did [] dcd ∧
      uiconfigRetry did (fetchEnvFail st :: rest) ucd = [] ∧
      consumerRetry ({ e with tokenOk := true, rateOk := true, raises := true } :: rest) cur =
        .obj [] ∧
      devicesRetry ({ e with tokenOk := true, rateOk := true, raises := true } :: rest) dm =
        [] ∧
      userProfileRetry ({ e with tokenOk := true, rateOk := true, raises := true } :: rest) cv =
        .obj [] ∧
      userPoolsRetry ({ e with tokenOk := true, raises := true } :: rest) upd = [] ∧
      componentsRetry did ({ e with tokenOk := true, raises := true } :: rest) dcd =
        pyInsert did [] dcd ∧
      uiconfigRetry did ({ e with tokenOk := true, raises := true } :: rest) ucd = [] ∧
      consumerRetry ({ e with tokenOk := true, rateOk := false } :: rest) cur = cur ∧
      devicesRetry ({ e with tokenOk := true, rateOk := false } :: rest) dm = dm ∧
      userProfileRetry ({ e with tokenOk := true, rateOk := false } :: rest) cv = cv ∧
      consumerRetry (fetchEnvTokenFail :: attempts) cur = consumerRetry attempts cur ∧
      devicesRetry (fetchEnvTokenFail :: attempts) dm = devicesRetry attempts dm ∧
      userProfileRetry (fetchEnvTokenFail :: attempts) cv = userProfileRetry attempts cv ∧
      userPoolsRetry (fetchEnvTokenFail :: attempts) upd = userPoolsRetry attempts upd ∧
      componentsRetry did (fetchEnvTokenFail :: attempts) dcd =
        componentsRetry did attempts dcd ∧
      uiconfigRetry did (fetchEnvTokenFail :: attempts) ucd =
        uiconfigRetry did attempts ucd ∧
      consumerRetry attempts cur =
        (match firstEffectiveAttempt attempts with
         | none => cur
         | some a => (fetchConsumerData a cur).2) ∧
      devicesRetry attempts dm =
        (match firstEffectiveAttempt attempts with
         | none => dm
         | some a => (fetchDevicesData a dm).2) ∧
      userProfileRetry attempts cv =
        (match firstEffectiveAttempt attempts with
         | none => cv
         | some a => (fetchUserProfileData a cv).2) ∧
      userPoolsRetry attempts upd =
        (match firstEffectiveAttempt attempts with
         | none => upd
         | some a => (fetchUserPoolsData a upd).2) ∧
      componentsRetry did attempts dcd =
        (match firstEffectiveAttempt attempts with
         | none => dcd
         | some a => (fetchDeviceComponentsData did a dcd).2) ∧
      uiconfigRetry did attempts ucd =
        (match firstEffectiveAttempt attempts with
         | none => ucd
         | some a => (fetchDeviceUiconfigData did a ucd).2) ∧
      (asyncUpdateData { env with authOk := true } s).isSome = true := by
  refine ⟨?_, ?_, ?_, ?_, ?_, ?_, ?_, ?_, ?_, ?_, ?_, ?_, ?_, ?_, ?_,
    rfl, rfl, rfl, rfl, rfl, rfl,
    fetchWithRetries_firstEffective _ _ _ retryHasAttr_consumer attempts cur,
    fetchWithRetries_firstEffective _ _ _ retryHasAttr_sources.1 attempts dm,
    fetchWithRetries_firstEffective _ _ _ retryHasAttr_sources.2.1 attempts cv,
    fetchWithRetries_firstEffective _ _ _ retryHasAttr_sources.2.2.1 attempts upd,
    fetchWithRetries_firstEffective _ _ _ retryHasAttr_sources.2.2.2.1 attempts dcd,
    fetchWithRetries_firstEffective _ _ _ retryHasAttr_sources.2.2.2.2 attempts ucd,
    by simp [asyncUpdateData]⟩
  · simp [consumerRetry, fetchWithRetries, retryHasAttr_consumer, fetchEnvFail,
      fetchConsumerData, hst]
  · simp [devicesRetry, fetchWithRetries, retryHasAttr_sources.1, fetchEnvFail,
      fetchDevicesData, hst]
  · simp [userProfileRetry, fetchWithRetries, retryHasAttr_sources.2.1, fetchEnvFail,
      fetchUserProfileData, hst]
  · simp [userPoolsRetry, fetchWithRetries, retryHasAttr_sources.2.2.1, fetchEnvFail,
      fetchUserPoolsData, hst]
  · simp [componentsRetry, fetchWithRetries, retryHasAttr_sources.2.2.2.1, fetchEnvFail,
      fetchDeviceComponentsData, hst]
  · simp [uiconfigRetry, fetchWithRetries, retryHasAttr_sources.2.2.2.2, fetchEnvFail,
      fetchDeviceUiconfigData, hst]
  · simp [consumerRetry, fetchWithRetries, retryHasAttr_consumer, fetchConsumerData]
  · simp [devicesRetry, fetchWithRetries, retryHasAttr_sources.1, fetchDevicesData]
  · simp [userProfileRetry, fetchWithRetries, retryHasAttr_sources.2.1,
      fetchUserProfileData]
  · simp [userPoolsRetry, fetchWithRetries, retryHasAttr_sources.2.2.1,
      fetchUserPoolsData]
  · simp [componentsRetry, fetchWithRetries, retryHasAttr_sources.2.2.2.1,
      fetchDeviceComponentsData]
  · simp [uiconfigRetry, fetchWithRetries, retryHasAttr_sources.2.2.2.2,
      fetchDeviceUiconfigData]
  · simp [consumerRetry, fetchWithRetries, retryHasAttr_consumer, fetchConsumerData]
  · simp [devicesRetry, fetchWithRetries, retryHasAttr_sources.1, fetchDevicesData]
  · simp [userProfileRetry, fetchWithRetries, retryHasAttr_sources.2.1,
      fetchUserProfileData]

/-- Witness for the amended claim C2: with concrete non-empty stored
values, one HTTP-500 attempt leaves every source's slot empty. -/
theorem claim_C2_witness :
    ((500 : Nat) ≠ 200) ∧
      consumerRetry [fetchEnvFail 500] (.obj [("k", .str "v")]) = .obj [] ∧
      devicesRetry [fetchEnvFail 500] [(.str "d", processDevice (.obj []))] = [] ∧
      userProfileRetry [fetchEnvFail 500] (.obj [("k", .str "v")]) = .obj [] ∧
      userPoolsRetry [fetchEnvFail 500] [(.str "p", .obj [])] = [] ∧
      componentsRetry (.str "d") [fetchEnvFail 500] [] = pyInsert (.str "d") [] [] ∧
      uiconfigRetry (.str "d") [fetchEnvFail 500] [("language", .str "en")] = [] := by
  have h := claim_C2_amended [] [] 500 (.obj [("k", .str "v")]) (.obj [("k", .str "v")])
    [(.str "d", processDevice (.obj []))] [(.str "p", .obj [])] (.str "d") []
    [("language", .str "en")] fetchEnvTokenFail
    { authOk := false, consumerAttempts := [], devicesAttempts := [],
      userProfileAttempts := [], userPoolsAttempts := [], componentsAttempts := [],
      uiconfigAttempts := [] } initialCoordState (by decide)
  exact ⟨by decide, h.1, h.2.1, h.2.2.1, h.2.2.2.1, h.2.2.2.2.1, h.2.2.2.2.2.1⟩

/-- Devices payload with one device `d1` carrying one error-kind alarm. -/
def devicesPayloadC8 : JVal :=
  .arr [.obj [("id", .str "d1"),
              ("alarms", .arr [.obj [("type", .str "error"), ("errorCode", .str "E42")]])]]

/-- Cycle environment for claim C8: authentication succeeds and the
devices fetch returns `devicesPayloadC8` with HTTP 200. -/
def cycleEnvC8 : CycleEnv :=
  { authOk := true,
    consumerAttempts := [],
    devicesAttempts := [fetchEnvOk devicesPayloadC8],
    userProfileAttempts := [],
    userPoolsAttempts := [],
    componentsAttempts := [],
    uiconfigAttempts := [] }

/-- The record `_process_error_information` would derive from that device
map. -/
def expectedErrorRecordC8 : JVal :=
  .obj [("error_code", .str "E42"),
        ("error_message", .str "Unknown error"),
        ("alarm_status", .str "error"),
        ("alarm_count", .int 1),
        ("device_id", .str "d1"),
        ("timestamp", .str "t0"),
        ("error_description", .str "Unknown error")]

/-- Claim C8 (code bug): `_process_error_information` is never invoked by
the refresh cycle, so after a cycle that stored a device with an error
alarm the published snapshot still carries the initial EMPTY
`error_information`, while the recomputation the claim describes would
derive a non-empty record from the very device map that cycle produced. -/
theorem claim_C8 :
    ((asyncUpdateData cycleEnvC8 initialCoordState).map CoordState.error_information =
        some (JVal.obj [])) ∧
      ((asyncUpdateData cycleEnvC8 initialCoordState).map
          (fun s => processErrorInformation none s.devices "t0") =
        some expectedErrorRecordC8) ∧
      JVal.obj [] ≠ expectedErrorRecordC8 := by
  refine ⟨rfl, rfl, ?_⟩
  intro h
  injection h with h2
  exact List.noConfusion h2

/-- The cycle never rewrites `error_information`: whatever snapshot a
refresh publishes carries the pre-cycle record unchanged. -/
theorem errorInformation_never_recomputed (env : CycleEnv) (s s' : CoordState)
    (h : asyncUpdateData env s = some s') :
    s'.error_information = s.error_information := by
  unfold asyncUpdateData at h
  by_cases ha : env.authOk
  · simp only [ha, Bool.not_true, Bool.false_eq_true, if_false, Option.some.injEq] at h
    subst h
    rfl
  · simp [ha] at h

end FluidraPool

namespace FluidraPool

/-- Keys after a Python dict insert: the inserted key or an existing key. -/
theorem keys_pyInsert_str (k : String) (v : JVal) :
    ∀ (l : List (String × JVal)), ∀ x ∈ (pyInsert k v l).map Prod.fst,
      x = k ∨ x ∈ l.map Prod.fst := by
  intro l
  induction l with
  | nil =>
    intro x hx
    simp [pyInsert] at hx
    exact Or.inl hx
  | cons kv rest ih =>
    intro x hx
    obtain ⟨k', v'⟩ := kv
    by_cases h : (k == k') = true
    · simp only [pyInsert, h, if_pos, List.map_cons, List.mem_cons] at hx
      right
      simp only [List.map_cons, List.mem_cons]
      exact hx
    · simp only [pyInsert, h, if_neg, Bool.false_eq_true, not_false_eq_true,
        List.map_cons, List.mem_cons] at hx
      rcases hx with h1 | h1
      · right; simp only [List.map_cons, List.mem_cons]; exact Or.inl h1
      · rcases ih x h1 with h2 | h2
        · exact Or.inl h2
        · right; simp only [List.map_cons, List.mem_cons]; exact Or.inr h2

/-- Every key produced by the `_process_device_components_data` loop comes
from `str()` of some input component's raw id (or was already in the
accumulator). -/
theorem processComponentsLoop_keys :
    ∀ (items : List JVal) (acc : List (String × JVal)),
      ∀ x ∈ (processComponentsLoop items acc).map Prod.fst,
        x ∈ acc.map Prod.fst ∨ ∃ c ∈ items, x = pyStr (jGet c "id") := by
  intro items
  induction items with
  | nil => intro acc x hx; exact Or.inl hx
  | cons c rest ih =>
    intro acc x hx
    by_cases h : (jGet c "id" == JVal.null) = true
    · simp only [processComponentsLoop, h, if_pos] at hx
      rcases ih acc x hx with h1 | ⟨c', hc', he⟩
      · exact Or.inl h1
      · exact Or.inr ⟨c', List.mem_cons_of_mem c hc', he⟩
    · simp only [processComponentsLoop, h, if_neg, Bool.false_eq_true,
        not_false_eq_true] at hx
      rcases ih _ x hx with h1 | ⟨c', hc', he⟩
      · rcases keys_pyInsert_str (pyStr (jGet c "id")) _ acc x h1 with h2 | h2
        · exact Or.inr ⟨c, List.mem_cons_self c rest, h2⟩
        · exact Or.inl h2
      · exact Or.inr ⟨c', List.mem_cons_of_mem c hc', he⟩

/-- Claim C9 counterexample: in the device-record normalizer
`_process_device`, a raw integer component id 19 is stored under the KEY
`JVal.int 19` while a raw string id "19" is stored under `JVal.str "19"`
— two different keys (no string coercion there), whereas the
components-endpoint normalizer coerces both to the same key "19". -/
theorem claim_C9_counterexample :
    (processDevice (JVal.obj [("components", .arr [JVal.obj [("id", JVal.int 19)]])])).components.map
        Prod.fst = [JVal.int 19] ∧
      (processDevice (JVal.obj [("components", .arr [JVal.obj [("id", JVal.str "19")]])])).components.map
        Prod.fst = [JVal.str "19"] ∧
      (processDeviceComponentsData (.arr [JVal.obj [("id", JVal.int 19)]])).map Prod.fst =
        ["19"] ∧
      (processDeviceComponentsData (.arr [JVal.obj [("id", JVal.str "19")]])).map Prod.fst =
        ["19"] ∧
      JVal.int 19 ≠ JVal.str "19" := by
  refine ⟨rfl, rfl, rfl, rfl, ?_⟩
  intro h
  exact JVal.noConfusion h

/-- Claim C9 amended: in the per-device component maps built by
`_process_device_components_data`, every key is the string form of some
raw component id, and an integer id and its string form produce the same
stored key; the device records built by `_process_device`, however, keep
the RAW id as key (see the counterexample), so the claim holds only for
the components-endpoint maps. -/
theorem claim_C9_amended (items : List JVal) (n : Int) :
    ((processDeviceComponentsData (.arr items)).map Prod.fst).all
        (fun x => items.any (fun c => x == pyStr (jGet c "id"))) = true ∧
      pyStr (JVal.int n) = pyStr (JVal.str (toString n)) ∧
      (processDeviceComponentsData (.arr [JVal.obj [("id", JVal.int n)]])).map Prod.fst =
        (processDeviceComponentsData
          (.arr [JVal.obj [("id", JVal.str (toString n))]])).map Prod.fst := by
  refine ⟨?_, rfl, rfl⟩
  rw [List.all_eq_true]
  intro x hx
  have hmem : x ∈ (processComponentsLoop items []).map Prod.fst := by
    simpa [processDeviceComponentsData] using hx
  rcases processComponentsLoop_keys items [] x hmem with h | ⟨c, hc, he⟩
  · simp at h
  · rw [List.any_eq_true]
    exact ⟨c, hc, by simp [he]⟩

end FluidraPool
